import Mathlib

/-!
# Verification of `KhoHang_API/app/firestore_service.py`

A shallow embedding of the Firestore data-access layer of the repository
`NT106_QuanLyKho_Nhom12`.  Python dictionaries become association lists over
a `PyVal` value type, the remote client becomes a `ClientBehavior` record in
which every remote operation either returns a result or raises (`Except`),
and each gateway function becomes a Lean function from an environment and
its arguments to a result paired with the trace of remote operations it
attempted.  A concrete `firestoreBehavior` models the semantics of the
remote document store (idempotent delete, `order_by` sorting, existence
flags) for the claims that depend on them.
-/

namespace FirestoreService

/-- Python values occurring in the records handled by this module. -/
inductive PyVal where
  | vNone : PyVal
  | vStr (s : String) : PyVal
  | vInt (n : Int) : PyVal
deriving DecidableEq, Repr

/-- A Python dict: an association list from field name to value
(first binding of a key wins on lookup). -/
abbrev Dict := List (String × PyVal)

/-- Python `d.get(k)`: the value bound to `k`, or `None` when absent. -/
def dictGet (d : Dict) (k : String) : PyVal :=
  match d.find? (fun kv => kv.1 = k) with
  | some kv => kv.2
  | none => PyVal.vNone

/-- Python `a | b` on dicts: bindings of `b` override those of `a`. -/
def dictUnion (a b : Dict) : Dict :=
  a.filter (fun kv => (b.find? (fun kv2 => kv2.1 = kv.1)).isNone) ++ b

/-- Python `str(v)` for the values of `PyVal`; in particular
`str(None) = "None"`. -/
def pyStr : PyVal → String
  | PyVal.vNone => "None"
  | PyVal.vStr s => s
  | PyVal.vInt n => toString n

/-- A document of the remote store: its identifier and its stored fields. -/
structure Doc where
  id : String
  data : Dict
deriving DecidableEq, Repr

/-- A Python exception, identified by its message. -/
abbrev PyExc := String

/-- A remote operation attempted by the gateway, as recorded in traces. -/
inductive RemoteOp where
  | set (coll docId : String) (data : Dict) : RemoteOp
  | update (coll docId : String) (data : Dict) : RemoteOp
  | delete (coll docId : String) : RemoteOp
  | stream (coll : String) : RemoteOp
  | orderByStream (coll field direction : String) : RemoteOp
  | getDoc (coll docId : String) : RemoteOp
deriving DecidableEq, Repr

/-- The behavior of a constructed remote client: every remote operation
either returns its result or raises an exception. -/
structure ClientBehavior where
  setResult : String → String → Dict → Except PyExc Unit
  updateResult : String → String → Dict → Except PyExc Unit
  deleteResult : String → String → Except PyExc Unit
  streamResult : String → Except PyExc (List Doc)
  orderByStreamResult : String → String → String → Except PyExc (List Doc)
  getDocResult : String → String → Except PyExc (Option Doc)

/-- The process environment seen by `get_client`: whether the
`google-cloud-firestore` import succeeded, and what constructing
`firestore.Client()` does (returns a client or raises). -/
structure Env where
  firestoreAvailable : Bool
  clientCreation : Except PyExc ClientBehavior

/-- A Python return value of a gateway function. -/
inductive PyRet where
  | rBool (b : Bool) : PyRet
  | rNone : PyRet
  | rList (l : List Dict) : PyRet
  | rDict (d : Dict) : PyRet
deriving DecidableEq, Repr

/-- Result of running a gateway function: the value returned (or the
exception that escaped), together with the remote operations attempted. -/
abbrev GRes := Except PyExc PyRet × List RemoteOp

/-- `get_client()`: returns `None` when the library import failed, else
constructs a client, catching any construction failure and returning
`None` for it.  The outer `Except` records whether an exception escapes
the function itself. -/
def get_client (env : Env) : Except PyExc (Option ClientBehavior) :=
  if env.firestoreAvailable = false then
    Except.ok none
  else
    match env.clientCreation with
    | Except.ok c => Except.ok (some c)
    | Except.error _ => Except.ok none

/-- `save_item(item)`: computes `doc_id = str(item.get("id"))`, rejects an
empty `doc_id`, otherwise performs `set` on the `items` collection inside
a try/except returning the success boolean. -/
def save_item (env : Env) (item : Dict) : GRes :=
  match get_client env with
  | Except.error e => (Except.error e, [])
  | Except.ok none => (Except.ok (PyRet.rBool false), [])
  | Except.ok (some cb) =>
    let doc_id := pyStr (dictGet item "id")
    if doc_id = "" then
      (Except.ok (PyRet.rBool false), [])
    else
      match cb.setResult "items" doc_id item with
      | Except.ok _ => (Except.ok (PyRet.rBool true), [RemoteOp.set "items" doc_id item])
      | Except.error _ => (Except.ok (PyRet.rBool false), [RemoteOp.set "items" doc_id item])

/-- `update_item(item_id, data)`: `update` on `items` under `str(item_id)`. -/
def update_item (env : Env) (item_id : Int) (data : Dict) : GRes :=
  match get_client env with
  | Except.error e => (Except.error e, [])
  | Except.ok none => (Except.ok (PyRet.rBool false), [])
  | Except.ok (some cb) =>
    match cb.updateResult "items" (toString item_id) data with
    | Except.ok _ => (Except.ok (PyRet.rBool true), [RemoteOp.update "items" (toString item_id) data])
    | Except.error _ => (Except.ok (PyRet.rBool false), [RemoteOp.update "items" (toString item_id) data])

/-- `delete_item(item_id)`: `delete` on `items` under `str(item_id)`. -/
def delete_item (env : Env) (item_id : Int) : GRes :=
  match get_client env with
  | Except.error e => (Except.error e, [])
  | Except.ok none => (Except.ok (PyRet.rBool false), [])
  | Except.ok (some cb) =>
    match cb.deleteResult "items" (toString item_id) with
    | Except.ok _ => (Except.ok (PyRet.rBool true), [RemoteOp.delete "items" (toString item_id)])
    | Except.error _ => (Except.ok (PyRet.rBool false), [RemoteOp.delete "items" (toString item_id)])

/-- `get_all_items()`: streams the `items` collection; note that unlike the
other collection reads it does not inject the document id. -/
def get_all_items (env : Env) : GRes :=
  match get_client env with
  | Except.error e => (Except.error e, [])
  | Except.ok none => (Except.ok (PyRet.rList []), [])
  | Except.ok (some cb) =>
    match cb.streamResult "items" with
    | Except.ok ds => (Except.ok (PyRet.rList (ds.map (fun d => d.data))), [RemoteOp.stream "items"])
    | Except.error _ => (Except.ok (PyRet.rList []), [RemoteOp.stream "items"])

/-- `d.to_dict() | {"id": d.id}`: the record with the document identifier
injected under the `id` key, overriding any stored `id` field. -/
def injectId (d : Doc) : Dict :=
  dictUnion d.data [("id", PyVal.vStr d.id)]

/-- `get_stock_out_records()`: streams `stock_out` ordered by `created_at`
descending, injecting each document id. -/
def get_stock_out_records (env : Env) : GRes :=
  match get_client env with
  | Except.error e => (Except.error e, [])
  | Except.ok none => (Except.ok (PyRet.rList []), [])
  | Except.ok (some cb) =>
    match cb.orderByStreamResult "stock_out" "created_at" "DESCENDING" with
    | Except.ok ds =>
      (Except.ok (PyRet.rList (ds.map injectId)), [RemoteOp.orderByStream "stock_out" "created_at" "DESCENDING"])
    | Except.error _ =>
      (Except.ok (PyRet.rList []), [RemoteOp.orderByStream "stock_out" "created_at" "DESCENDING"])

/-- `get_stock_out_record(record_id)`: single-document `get` on `stock_out`;
absent document gives `None`, an existing one gives the record with the
document id injected. -/
def get_stock_out_record (env : Env) (record_id : String) : GRes :=
  match get_client env with
  | Except.error e => (Except.error e, [])
  | Except.ok none => (Except.ok PyRet.rNone, [])
  | Except.ok (some cb) =>
    match cb.getDocResult "stock_out" record_id with
    | Except.ok none => (Except.ok PyRet.rNone, [RemoteOp.getDoc "stock_out" record_id])
    | Except.ok (some d) => (Except.ok (PyRet.rDict (injectId d)), [RemoteOp.getDoc "stock_out" record_id])
    | Except.error _ => (Except.ok PyRet.rNone, [RemoteOp.getDoc "stock_out" record_id])

/-- `save_stock_out(record_id, data)`: as written, the body only handles the
client-unavailable case; with a client available the function falls off its
end, returning Python `None` and performing no remote operation (its
intended body was pasted, unreachably, into `delete_stock_in`). -/
def save_stock_out (env : Env) (record_id : String) (data : Dict) : GRes :=
  match get_client env with
  | Except.error e => (Except.error e, [])
  | Except.ok none => (Except.ok (PyRet.rBool false), [])
  | Except.ok (some _cb) => (Except.ok PyRet.rNone, [])

/-- `save_stock_in(record_id, data)`: `set` on `stock_in` under `record_id`. -/
def save_stock_in (env : Env) (record_id : String) (data : Dict) : GRes :=
  match get_client env with
  | Except.error e => (Except.error e, [])
  | Except.ok none => (Except.ok (PyRet.rBool false), [])
  | Except.ok (some cb) =>
    match cb.setResult "stock_in" record_id data with
    | Except.ok _ => (Except.ok (PyRet.rBool true), [RemoteOp.set "stock_in" record_id data])
    | Except.error _ => (Except.ok (PyRet.rBool false), [RemoteOp.set "stock_in" record_id data])

/-- `get_stock_in_records()`: streams `stock_in` ordered by `created_at`
descending, injecting each document id. -/
def get_stock_in_records (env : Env) : GRes :=
  match get_client env with
  | Except.error e => (Except.error e, [])
  | Except.ok none => (Except.ok (PyRet.rList []), [])
  | Except.ok (some cb) =>
    match cb.orderByStreamResult "stock_in" "created_at" "DESCENDING" with
    | Except.ok ds =>
      (Except.ok (PyRet.rList (ds.map injectId)), [RemoteOp.orderByStream "stock_in" "created_at" "DESCENDING"])
    | Except.error _ =>
      (Except.ok (PyRet.rList []), [RemoteOp.orderByStream "stock_in" "created_at" "DESCENDING"])

/-- `delete_stock_in(record_id)`: `delete` on `stock_in` inside a try/except;
both branches of the try/except return, so the copy-pasted trailing
`set`-on-`stock_out` fragment after them never runs.  The embedding keeps
that fragment as the fall-through branch of an `Option` match so its
unreachability is a provable fact rather than an omission; had it run,
evaluating the unbound name `data` would raise a `NameError`, caught by
its own except clause, returning `False` with no remote call attempted. -/
def delete_stock_in (env : Env) (record_id : String) : GRes :=
  match get_client env with
  | Except.error e => (Except.error e, [])
  | Except.ok none => (Except.ok (PyRet.rBool false), [])
  | Except.ok (some cb) =>
    let firstBlock : Option GRes :=
      match cb.deleteResult "stock_in" record_id with
      | Except.ok _ => some (Except.ok (PyRet.rBool true), [RemoteOp.delete "stock_in" record_id])
      | Except.error _ => some (Except.ok (PyRet.rBool false), [RemoteOp.delete "stock_in" record_id])
    match firstBlock with
    | some r => r
    | none => (Except.ok (PyRet.rBool false), [])

/-- `delete_stock_out(record_id)`: `delete` on `stock_out` under `record_id`. -/
def delete_stock_out (env : Env) (record_id : String) : GRes :=
  match get_client env with
  | Except.error e => (Except.error e, [])
  | Except.ok none => (Except.ok (PyRet.rBool false), [])
  | Except.ok (some cb) =>
    match cb.deleteResult "stock_out" record_id with
    | Except.ok _ => (Except.ok (PyRet.rBool true), [RemoteOp.delete "stock_out" record_id])
    | Except.error _ => (Except.ok (PyRet.rBool false), [RemoteOp.delete "stock_out" record_id])

/-- `get_all_suppliers()`: streams `suppliers`, injecting each document id. -/
def get_all_suppliers (env : Env) : GRes :=
  match get_client env with
  | Except.error e => (Except.error e, [])
  | Except.ok none => (Except.ok (PyRet.rList []), [])
  | Except.ok (some cb) =>
    match cb.streamResult "suppliers" with
    | Except.ok ds => (Except.ok (PyRet.rList (ds.map injectId)), [RemoteOp.stream "suppliers"])
    | Except.error _ => (Except.ok (PyRet.rList []), [RemoteOp.stream "suppliers"])

/-- `save_supplier(supplier_id, data)`: `set` on `suppliers` under
`str(supplier_id)`; `supplier_id` is already a string and Python `str` on a
string is the identity. -/
def save_supplier (env : Env) (supplier_id : String) (data : Dict) : GRes :=
  match get_client env with
  | Except.error e => (Except.error e, [])
  | Except.ok none => (Except.ok (PyRet.rBool false), [])
  | Except.ok (some cb) =>
    match cb.setResult "suppliers" supplier_id data with
    | Except.ok _ => (Except.ok (PyRet.rBool true), [RemoteOp.set "suppliers" supplier_id data])
    | Except.error _ => (Except.ok (PyRet.rBool false), [RemoteOp.set "suppliers" supplier_id data])

/-- `delete_supplier(supplier_id)`: `delete` on `suppliers` under
`str(supplier_id)` (identity on a string). -/
def delete_supplier (env : Env) (supplier_id : String) : GRes :=
  match get_client env with
  | Except.error e => (Except.error e, [])
  | Except.ok none => (Except.ok (PyRet.rBool false), [])
  | Except.ok (some cb) =>
    match cb.deleteResult "suppliers" supplier_id with
    | Except.ok _ => (Except.ok (PyRet.rBool true), [RemoteOp.delete "suppliers" supplier_id])
    | Except.error _ => (Except.ok (PyRet.rBool false), [RemoteOp.delete "suppliers" supplier_id])

/-- `get_all_warehouses()`: streams `warehouses`, injecting each document id. -/
def get_all_warehouses (env : Env) : GRes :=
  match get_client env with
  | Except.error e => (Except.error e, [])
  | Except.ok none => (Except.ok (PyRet.rList []), [])
  | Except.ok (some cb) =>
    match cb.streamResult "warehouses" with
    | Except.ok ds => (Except.ok (PyRet.rList (ds.map injectId)), [RemoteOp.stream "warehouses"])
    | Except.error _ => (Except.ok (PyRet.rList []), [RemoteOp.stream "warehouses"])

/-- `save_warehouse(warehouse_id, data)`: `set` on `warehouses` under
`str(warehouse_id)` (identity on a string). -/
def save_warehouse (env : Env) (warehouse_id : String) (data : Dict) : GRes :=
  match get_client env with
  | Except.error e => (Except.error e, [])
  | Except.ok none => (Except.ok (PyRet.rBool false), [])
  | Except.ok (some cb) =>
    match cb.setResult "warehouses" warehouse_id data with
    | Except.ok _ => (Except.ok (PyRet.rBool true), [RemoteOp.set "warehouses" warehouse_id data])
    | Except.error _ => (Except.ok (PyRet.rBool false), [RemoteOp.set "warehouses" warehouse_id data])

/-- `delete_warehouse(warehouse_id)`: `delete` on `warehouses` under
`str(warehouse_id)` (identity on a string). -/
def delete_warehouse (env : Env) (warehouse_id : String) : GRes :=
  match get_client env with
  | Except.error e => (Except.error e, [])
  | Except.ok none => (Except.ok (PyRet.rBool false), [])
  | Except.ok (some cb) =>
    match cb.deleteResult "warehouses" warehouse_id with
    | Except.ok _ => (Except.ok (PyRet.rBool true), [RemoteOp.delete "warehouses" warehouse_id])
    | Except.error _ => (Except.ok (PyRet.rBool false), [RemoteOp.delete "warehouses" warehouse_id])

/-! ## A model of the remote document store

The external `google-cloud-firestore` client is a black box to the source;
the following definitions model its documented semantics — idempotent
`delete`, existence flags on single-document `get`, and `order_by` with
`direction="DESCENDING"` sorting by the named field — so that claims
about store behavior can be stated and settled. -/

/-- The remote store: the documents of each named collection. -/
abbrev Store := List (String × List Doc)

/-- The documents currently in collection `coll`. -/
def collDocs (store : Store) (coll : String) : List Doc :=
  match store.find? (fun e => e.1 = coll) with
  | some e => e.2
  | none => []

/-- The document of `coll` with identifier `docId`, when it exists. -/
def docFind (store : Store) (coll docId : String) : Option Doc :=
  (collDocs store coll).find? (fun d => d.id = docId)

/-- The `created_at` field of a document, read as an integer (the claims
exercise integer timestamps); any other value compares as 0. -/
def createdAtInt (d : Doc) : Int :=
  match dictGet d.data "created_at" with
  | PyVal.vInt n => n
  | _ => 0

/-- Descending order on documents by their `created_at` field. -/
def descByCreatedAt (a b : Doc) : Prop :=
  createdAtInt b ≤ createdAtInt a

instance : DecidableRel descByCreatedAt :=
  fun a b => inferInstanceAs (Decidable (createdAtInt b ≤ createdAtInt a))

instance : IsTotal Doc descByCreatedAt :=
  ⟨fun a b => (le_total (createdAtInt b) (createdAtInt a)).imp id id⟩

instance : IsTrans Doc descByCreatedAt :=
  ⟨fun _ _ _ h1 h2 => le_trans h2 h1⟩

/-- The sequence `order_by("created_at", direction="DESCENDING").stream()`
produces: the collection sorted by `created_at`, most recent first. -/
def sortDescCreatedAt (ds : List Doc) : List Doc :=
  List.insertionSort descByCreatedAt ds

/-- The behavior of a real Firestore client over store contents `store`:
writes and idempotent deletes succeed, streams list the collection,
`order_by` on `created_at` descending sorts it, and single-document `get`
reports existence. -/
def firestoreBehavior (store : Store) : ClientBehavior where
  setResult _ _ _ := Except.ok ()
  updateResult coll docId _ :=
    match docFind store coll docId with
    | some _ => Except.ok ()
    | none => Except.error "NotFound"
  deleteResult _ _ := Except.ok ()
  streamResult coll := Except.ok (collDocs store coll)
  orderByStreamResult coll field direction :=
    if field = "created_at" && direction = "DESCENDING" then
      Except.ok (sortDescCreatedAt (collDocs store coll))
    else
      Except.ok (collDocs store coll)
  getDocResult coll docId := Except.ok (docFind store coll docId)

/-- An environment in which the library is importable and client
construction yields a client behaving as Firestore over `store`. -/
def envOf (store : Store) : Env :=
  { firestoreAvailable := true, clientCreation := Except.ok (firestoreBehavior store) }

/-- An environment in which the library import failed, so `get_client`
returns `None`. -/
def envNoLib : Env :=
  { firestoreAvailable := false, clientCreation := Except.error "unused" }

/-- A client behavior that raises `e` on every remote operation. -/
def raiseCB (e : PyExc) : ClientBehavior where
  setResult _ _ _ := Except.error e
  updateResult _ _ _ := Except.error e
  deleteResult _ _ := Except.error e
  streamResult _ := Except.error e
  orderByStreamResult _ _ _ := Except.error e
  getDocResult _ _ := Except.error e

/-- An environment whose client raises `e` on every remote operation. -/
def envRaise (e : PyExc) : Env :=
  { firestoreAvailable := true, clientCreation := Except.ok (raiseCB e) }

/-- The `created_at` field of a returned record, read as an integer. -/
def createdAtOfDict (d : Dict) : Int :=
  match dictGet d "created_at" with
  | PyVal.vInt n => n
  | _ => 0

/-- The `created_at` values of the records a gateway read returned, when it
returned a list. -/
def retCreatedAts (g : GRes) : Option (List Int) :=
  match g.1 with
  | Except.ok (PyRet.rList l) => some (l.map createdAtOfDict)
  | _ => none

/-! ## Helper lemmas -/

/-- `get_client` either reports the client unavailable or yields one. -/
theorem get_client_cases (env : Env) :
    get_client env = Except.ok none ∨ ∃ cb, get_client env = Except.ok (some cb) := by
  unfold get_client
  by_cases h : env.firestoreAvailable = false
  · rw [if_pos h]
    exact Or.inl rfl
  · rw [if_neg h]
    cases hc : env.clientCreation with
    | ok c => exact Or.inr ⟨c, rfl⟩
    | error e => exact Or.inl rfl

/-- `get_client` never lets an exception escape. -/
theorem get_client_ok (env : Env) : ∃ c, get_client env = Except.ok c := by
  rcases get_client_cases env with h | ⟨cb, h⟩
  · exact ⟨none, h⟩
  · exact ⟨some cb, h⟩

/-- Looking up the key bound by the right operand of a dict union yields the
overriding value. -/
theorem dictGet_union_self (a : Dict) (k : String) (v : PyVal) :
    dictGet (dictUnion a [(k, v)]) k = v := by
  unfold dictGet dictUnion
  rw [List.find?_append]
  have hleft :
      (a.filter fun kv => (([(k, v)] : Dict).find? fun kv2 => kv2.1 = kv.1).isNone).find?
        (fun kv => kv.1 = k) = none := by
    rw [List.find?_eq_none]
    intro x hx
    have hq := List.of_mem_filter hx
    by_cases h : x.1 = k
    · simp [h] at hq
    · simp [h]
  rw [hleft]
  simp

/-- Auxiliary: the union with a single binding of key `k` does not disturb
lookups of another key `j`. -/
theorem find?_union_other (a : Dict) (k j : String) (v : PyVal) (h : j ≠ k) :
    ((dictUnion a [(k, v)]).find? fun kv => kv.1 = j) = a.find? fun kv => kv.1 = j := by
  induction a with
  | nil =>
    simp [dictUnion, List.find?, Ne.symm h]
  | cons x rest ih =>
    unfold dictUnion at ih ⊢
    rw [List.filter_cons]
    by_cases hP : ((([(k, v)] : Dict).find? fun kv2 => kv2.1 = x.1).isNone : Bool) = true
    · rw [if_pos hP, List.cons_append]
      by_cases hx : x.1 = j
      · simp [hx]
      · have hdx : (decide (x.1 = j)) = false := decide_eq_false hx
        rw [List.find?_cons, List.find?_cons, hdx]
        exact ih
    · rw [if_neg hP]
      have hxk : k = x.1 := by
        by_contra hne
        exact hP (by simp [List.find?, hne])
      have hdx : (decide (x.1 = j)) = false := by
        refine decide_eq_false ?_
        rw [← hxk]
        exact Ne.symm h
      rw [List.find?_cons, hdx]
      exact ih

/-- Looking up a key other than the one bound by the right operand of a dict
union falls through to the left operand. -/
theorem dictGet_union_other (a : Dict) (k j : String) (v : PyVal) (h : j ≠ k) :
    dictGet (dictUnion a [(k, v)]) j = dictGet a j := by
  unfold dictGet
  rw [find?_union_other a k j v h]

/-- The `id` key of a record returned by the reads that inject the document
identifier equals that identifier, overriding any stored `id` field. -/
theorem dictGet_injectId_id (d : Doc) : dictGet (injectId d) "id" = PyVal.vStr d.id :=
  dictGet_union_self d.data "id" (PyVal.vStr d.id)

/-- Injecting the document identifier leaves the `created_at` field alone. -/
theorem createdAtOfDict_injectId (d : Doc) : createdAtOfDict (injectId d) = createdAtInt d := by
  unfold createdAtOfDict createdAtInt injectId
  rw [dictGet_union_other d.data "id" "created_at" (PyVal.vStr d.id) (by decide)]

/-! ## Claims -/

/-- C1: the claim says `save_item` on a record lacking an `id` field returns
false and performs no remote call.  The code contradicts it (and its own
"Item missing id" log, which can never fire for a missing id): on the empty
record with a working client over an empty store, `str(item.get("id"))`
yields the truthy text "None", so `save_item` performs a remote `set` under
document id "None" in `items` and returns True. -/
theorem save_item_missing_id_saves_under_None :
    save_item (envOf []) [] =
      (Except.ok (PyRet.rBool true), [RemoteOp.set "items" "None" []]) := by
  rfl

/-- C2: the claim says `save_stock_out`, with the client available, performs
exactly one remote `set` under the record id in `stock_out` and returns a
boolean.  The code contradicts it: for every store, record id and data, the
function performs no remote operation at all and returns Python `None`
(its body falls off the end; the intended `set` was pasted into
`delete_stock_in` where it is unreachable). -/
theorem save_stock_out_writes_nothing (store : Store) (record_id : String) (data : Dict) :
    save_stock_out (envOf store) record_id data = (Except.ok PyRet.rNone, []) := by
  rfl

/-- C9: for every record whose `id` field is absent or None, `save_item`
computes the document identifier as the text "None", which passes the
emptiness check, so with a client available it performs a remote `set` of
the record under document id "None" in `items`, and returns True whenever
that call does not raise. -/
theorem save_item_none_id_uses_None_doc (env : Env) (cb : ClientBehavior) (item : Dict)
    (hc : get_client env = Except.ok (some cb)) (hid : dictGet item "id" = PyVal.vNone) :
    pyStr (dictGet item "id") = "None" ∧
    (save_item env item).2 = [RemoteOp.set "items" "None" item] ∧
    (∀ u, cb.setResult "items" "None" item = Except.ok u →
      save_item env item = (Except.ok (PyRet.rBool true), [RemoteOp.set "items" "None" item])) := by
  have hstr : pyStr (dictGet item "id") = "None" := by rw [hid]; rfl
  refine ⟨hstr, ?_, ?_⟩
  · unfold save_item
    rw [hc, hstr]
    dsimp only
    rw [if_neg (by decide : ¬("None" = ""))]
    cases cb.setResult "items" "None" item <;> rfl
  · intro u hset
    unfold save_item
    rw [hc, hstr]
    dsimp only
    rw [if_neg (by decide : ¬("None" = "")), hset]

/-- C9 witness: on a concrete record with no `id` field and a working client
over the empty store, `save_item` performs the remote `set` under "None" and
returns True. -/
theorem save_item_none_id_uses_None_doc_witness :
    save_item (envOf []) [("name", PyVal.vStr "x")] =
      (Except.ok (PyRet.rBool true), [RemoteOp.set "items" "None" [("name", PyVal.vStr "x")]]) :=
  (save_item_none_id_uses_None_doc (envOf []) (firestoreBehavior []) [("name", PyVal.vStr "x")]
    rfl rfl).2.2 () rfl

/-- C10: for every environment and record id, `delete_stock_in` attempts at
most one remote operation — a `delete` on the `stock_in` collection under the
record id — and always returns a boolean; the copy-pasted trailing `set`
fragment on `stock_out` never runs, because both branches of the preceding
try/except return. -/
theorem delete_stock_in_single_delete (env : Env) (record_id : String) :
    ((delete_stock_in env record_id).2 = [] ∨
      (delete_stock_in env record_id).2 = [RemoteOp.delete "stock_in" record_id]) ∧
    ∃ b, (delete_stock_in env record_id).1 = Except.ok (PyRet.rBool b) := by
  unfold delete_stock_in
  rcases get_client_cases env with h | ⟨cb, h⟩ <;> rw [h] <;> dsimp only
  · exact ⟨Or.inl rfl, false, rfl⟩
  · cases hd : cb.deleteResult "stock_in" record_id with
    | ok u => exact ⟨Or.inr rfl, true, rfl⟩
    | error e => exact ⟨Or.inr rfl, false, rfl⟩

/-- C4: whenever `get_client` reports the client unavailable, every gateway
function returns its designated negative result — false for every mutation,
the empty list for every collection-wide read, and absent for
`get_stock_out_record` — performing no remote call and raising nothing. -/
theorem unavailable_client_negative_results (env : Env)
    (h : get_client env = Except.ok none) :
    (∀ item, save_item env item = (Except.ok (PyRet.rBool false), [])) ∧
    (∀ i d, update_item env i d = (Except.ok (PyRet.rBool false), [])) ∧
    (∀ i, delete_item env i = (Except.ok (PyRet.rBool false), [])) ∧
    (∀ r d, save_stock_in env r d = (Except.ok (PyRet.rBool false), [])) ∧
    (∀ r, delete_stock_in env r = (Except.ok (PyRet.rBool false), [])) ∧
    (∀ r d, save_stock_out env r d = (Except.ok (PyRet.rBool false), [])) ∧
    (∀ r, delete_stock_out env r = (Except.ok (PyRet.rBool false), [])) ∧
    (∀ s d, save_supplier env s d = (Except.ok (PyRet.rBool false), [])) ∧
    (∀ s, delete_supplier env s = (Except.ok (PyRet.rBool false), [])) ∧
    (∀ w d, save_warehouse env w d = (Except.ok (PyRet.rBool false), [])) ∧
    (∀ w, delete_warehouse env w = (Except.ok (PyRet.rBool false), [])) ∧
    get_all_items env = (Except.ok (PyRet.rList []), []) ∧
    get_stock_in_records env = (Except.ok (PyRet.rList []), []) ∧
    get_stock_out_records env = (Except.ok (PyRet.rList []), []) ∧
    get_all_suppliers env = (Except.ok (PyRet.rList []), []) ∧
    get_all_warehouses env = (Except.ok (PyRet.rList []), []) ∧
    (∀ r, get_stock_out_record env r = (Except.ok PyRet.rNone, [])) := by
  refine ⟨fun item => ?_, fun i d => ?_, fun i => ?_, fun r d => ?_, fun r => ?_,
    fun r d => ?_, fun r => ?_, fun s d => ?_, fun s => ?_, fun w d => ?_, fun w => ?_,
    ?_, ?_, ?_, ?_, ?_, fun r => ?_⟩ <;>
  · first
    | (unfold save_item; rw [h])
    | (unfold update_item; rw [h])
    | (unfold delete_item; rw [h])
    | (unfold save_stock_in; rw [h])
    | (unfold delete_stock_in; rw [h])
    | (unfold save_stock_out; rw [h])
    | (unfold delete_stock_out; rw [h])
    | (unfold save_supplier; rw [h])
    | (unfold delete_supplier; rw [h])
    | (unfold save_warehouse; rw [h])
    | (unfold delete_warehouse; rw [h])
    | (unfold get_all_items; rw [h])
    | (unfold get_stock_in_records; rw [h])
    | (unfold get_stock_out_records; rw [h])
    | (unfold get_all_suppliers; rw [h])
    | (unfold get_all_warehouses; rw [h])
    | (unfold get_stock_out_record; rw [h])

/-- C4 witness: in the environment where the library import failed,
concrete calls of a mutation, a collection-wide read and the
single-document read all yield their negative results with no remote
call. -/
theorem unavailable_client_negative_results_witness :
    save_item envNoLib [("id", PyVal.vInt 1)] = (Except.ok (PyRet.rBool false), []) ∧
    get_all_items envNoLib = (Except.ok (PyRet.rList []), []) ∧
    get_stock_out_record envNoLib "r" = (Except.ok PyRet.rNone, []) := by
  obtain ⟨h1, h2, h3, h4, h5, h6, h7, h8, h9, h10, h11, h12, h13, h14, h15, h16, h17⟩ :=
    unavailable_client_negative_results envNoLib rfl
  exact ⟨h1 [("id", PyVal.vInt 1)], h12, h17 "r"⟩

/-- Helper: `save_item` never lets an exception escape. -/
theorem save_item_never_raises (env : Env) (item : Dict) :
    ∃ v, (save_item env item).1 = Except.ok v := by
  unfold save_item
  rcases get_client_cases env with h | ⟨cb, h⟩ <;> rw [h] <;> dsimp only
  · exact ⟨_, rfl⟩
  · by_cases hid : pyStr (dictGet item "id") = ""
    · rw [if_pos hid]
      exact ⟨_, rfl⟩
    · rw [if_neg hid]
      cases hs : cb.setResult "items" (pyStr (dictGet item "id")) item <;> exact ⟨_, rfl⟩

/-- Helper: `update_item` never lets an exception escape. -/
theorem update_item_never_raises (env : Env) (i : Int) (d : Dict) :
    ∃ v, (update_item env i d).1 = Except.ok v := by
  unfold update_item
  rcases get_client_cases env with h | ⟨cb, h⟩ <;> rw [h] <;> dsimp only
  · exact ⟨_, rfl⟩
  · cases ho : cb.updateResult "items" (toString i) d <;> exact ⟨_, rfl⟩

/-- Helper: `delete_item` never lets an exception escape. -/
theorem delete_item_never_raises (env : Env) (i : Int) :
    ∃ v, (delete_item env i).1 = Except.ok v := by
  unfold delete_item
  rcases get_client_cases env with h | ⟨cb, h⟩ <;> rw [h] <;> dsimp only
  · exact ⟨_, rfl⟩
  · cases ho : cb.deleteResult "items" (toString i) <;> exact ⟨_, rfl⟩

/-- Helper: `get_all_items` never lets an exception escape. -/
theorem get_all_items_never_raises (env : Env) :
    ∃ v, (get_all_items env).1 = Except.ok v := by
  unfold get_all_items
  rcases get_client_cases env with h | ⟨cb, h⟩ <;> rw [h] <;> dsimp only
  · exact ⟨_, rfl⟩
  · cases ho : cb.streamResult "items" <;> exact ⟨_, rfl⟩

/-- Helper: `get_stock_out_records` never lets an exception escape. -/
theorem get_stock_out_records_never_raises (env : Env) :
    ∃ v, (get_stock_out_records env).1 = Except.ok v := by
  unfold get_stock_out_records
  rcases get_client_cases env with h | ⟨cb, h⟩ <;> rw [h] <;> dsimp only
  · exact ⟨_, rfl⟩
  · cases ho : cb.orderByStreamResult "stock_out" "created_at" "DESCENDING" <;> exact ⟨_, rfl⟩

/-- Helper: `save_stock_in` never lets an exception escape. -/
theorem save_stock_in_never_raises (env : Env) (r : String) (d : Dict) :
    ∃ v, (save_stock_in env r d).1 = Except.ok v := by
  unfold save_stock_in
  rcases get_client_cases env with h | ⟨cb, h⟩ <;> rw [h] <;> dsimp only
  · exact ⟨_, rfl⟩
  · cases ho : cb.setResult "stock_in" r d <;> exact ⟨_, rfl⟩

/-- Helper: `get_stock_in_records` never lets an exception escape. -/
theorem get_stock_in_records_never_raises (env : Env) :
    ∃ v, (get_stock_in_records env).1 = Except.ok v := by
  unfold get_stock_in_records
  rcases get_client_cases env with h | ⟨cb, h⟩ <;> rw [h] <;> dsimp only
  · exact ⟨_, rfl⟩
  · cases ho : cb.orderByStreamResult "stock_in" "created_at" "DESCENDING" <;> exact ⟨_, rfl⟩

/-- Helper: `delete_stock_in` never lets an exception escape. -/
theorem delete_stock_in_never_raises (env : Env) (r : String) :
    ∃ v, (delete_stock_in env r).1 = Except.ok v := by
  unfold delete_stock_in
  rcases get_client_cases env with h | ⟨cb, h⟩ <;> rw [h] <;> dsimp only
  · exact ⟨_, rfl⟩
  · cases ho : cb.deleteResult "stock_in" r <;> exact ⟨_, rfl⟩

/-- Helper: `delete_stock_out` never lets an exception escape. -/
theorem delete_stock_out_never_raises (env : Env) (r : String) :
    ∃ v, (delete_stock_out env r).1 = Except.ok v := by
  unfold delete_stock_out
  rcases get_client_cases env with h | ⟨cb, h⟩ <;> rw [h] <;> dsimp only
  · exact ⟨_, rfl⟩
  · cases ho : cb.deleteResult "stock_out" r <;> exact ⟨_, rfl⟩

/-- Helper: `get_all_suppliers` never lets an exception escape. -/
theorem get_all_suppliers_never_raises (env : Env) :
    ∃ v, (get_all_suppliers env).1 = Except.ok v := by
  unfold get_all_suppliers
  rcases get_client_cases env with h | ⟨cb, h⟩ <;> rw [h] <;> dsimp only
  · exact ⟨_, rfl⟩
  · cases ho : cb.streamResult "suppliers" <;> exact ⟨_, rfl⟩

/-- Helper: `save_supplier` never lets an exception escape. -/
theorem save_supplier_never_raises (env : Env) (s : String) (d : Dict) :
    ∃ v, (save_supplier env s d).1 = Except.ok v := by
  unfold save_supplier
  rcases get_client_cases env with h | ⟨cb, h⟩ <;> rw [h] <;> dsimp only
  · exact ⟨_, rfl⟩
  · cases ho : cb.setResult "suppliers" s d <;> exact ⟨_, rfl⟩

/-- Helper: `delete_supplier` never lets an exception escape. -/
theorem delete_supplier_never_raises (env : Env) (s : String) :
    ∃ v, (delete_supplier env s).1 = Except.ok v := by
  unfold delete_supplier
  rcases get_client_cases env with h | ⟨cb, h⟩ <;> rw [h] <;> dsimp only
  · exact ⟨_, rfl⟩
  · cases ho : cb.deleteResult "suppliers" s <;> exact ⟨_, rfl⟩

/-- Helper: `get_all_warehouses` never lets an exception escape. -/
theorem get_all_warehouses_never_raises (env : Env) :
    ∃ v, (get_all_warehouses env).1 = Except.ok v := by
  unfold get_all_warehouses
  rcases get_client_cases env with h | ⟨cb, h⟩ <;> rw [h] <;> dsimp only
  · exact ⟨_, rfl⟩
  · cases ho : cb.streamResult "warehouses" <;> exact ⟨_, rfl⟩

/-- Helper: `save_warehouse` never lets an exception escape. -/
theorem save_warehouse_never_raises (env : Env) (w : String) (d : Dict) :
    ∃ v, (save_warehouse env w d).1 = Except.ok v := by
  unfold save_warehouse
  rcases get_client_cases env with h | ⟨cb, h⟩ <;> rw [h] <;> dsimp only
  · exact ⟨_, rfl⟩
  · cases ho : cb.setResult "warehouses" w d <;> exact ⟨_, rfl⟩

/-- Helper: `delete_warehouse` never lets an exception escape. -/
theorem delete_warehouse_never_raises (env : Env) (w : String) :
    ∃ v, (delete_warehouse env w).1 = Except.ok v := by
  unfold delete_warehouse
  rcases get_client_cases env with h | ⟨cb, h⟩ <;> rw [h] <;> dsimp only
  · exact ⟨_, rfl⟩
  · cases ho : cb.deleteResult "warehouses" w <;> exact ⟨_, rfl⟩

/-- Helper: `get_stock_out_record` never lets an exception escape. -/
theorem get_stock_out_record_never_raises (env : Env) (r : String) :
    ∃ v, (get_stock_out_record env r).1 = Except.ok v := by
  unfold get_stock_out_record
  rcases get_client_cases env with h | ⟨cb, h⟩ <;> rw [h] <;> dsimp only
  · exact ⟨_, rfl⟩
  · cases ho : cb.getDocResult "stock_out" r with
    | ok o => cases o <;> exact ⟨_, rfl⟩
    | error e => exact ⟨_, rfl⟩

/-- Helper: `save_stock_out` never lets an exception escape. -/
theorem save_stock_out_never_raises (env : Env) (r : String) (d : Dict) :
    ∃ v, (save_stock_out env r d).1 = Except.ok v := by
  unfold save_stock_out
  rcases get_client_cases env with h | ⟨cb, h⟩ <;> rw [h] <;> dsimp only
  · exact ⟨_, rfl⟩
  · exact ⟨_, rfl⟩

/-- Helper: `save_stock_out` never attempts a remote operation, so no remote
failure can ever arise inside it. -/
theorem save_stock_out_no_remote_op (env : Env) (r : String) (d : Dict) :
    (save_stock_out env r d).2 = [] := by
  unfold save_stock_out
  rcases get_client_cases env with h | ⟨cb, h⟩ <;> rw [h]

/-- Helper: under a client raising on every operation, `save_item` returns
its negative result, false. -/
theorem save_item_on_raise (e : PyExc) (item : Dict) :
    (save_item (envRaise e) item).1 = Except.ok (PyRet.rBool false) := by
  by_cases hid : pyStr (dictGet item "id") = "" <;>
    simp [save_item, get_client, envRaise, raiseCB, hid]

/-- Helper: under a client raising on every operation, `update_item` returns
its negative result. -/
theorem update_item_on_raise (e : PyExc) (i : Int) (d : Dict) :
    (update_item (envRaise e) i d).1 = Except.ok (PyRet.rBool false) := by
  rfl

/-- Helper: under a client raising on every operation, `delete_item` returns
its negative result. -/
theorem delete_item_on_raise (e : PyExc) (i : Int) :
    (delete_item (envRaise e) i).1 = Except.ok (PyRet.rBool false) := by
  rfl

/-- Helper: under a client raising on every operation, `get_all_items` returns
its negative result. -/
theorem get_all_items_on_raise (e : PyExc) :
    (get_all_items (envRaise e)).1 = Except.ok (PyRet.rList []) := by
  rfl

/-- Helper: under a client raising on every operation, `get_stock_out_records` returns
its negative result. -/
theorem get_stock_out_records_on_raise (e : PyExc) :
    (get_stock_out_records (envRaise e)).1 = Except.ok (PyRet.rList []) := by
  rfl

/-- Helper: under a client raising on every operation, `get_stock_out_record` returns
its negative result. -/
theorem get_stock_out_record_on_raise (e : PyExc) (r : String) :
    (get_stock_out_record (envRaise e) r).1 = Except.ok (PyRet.rNone) := by
  rfl

/-- Helper: under a client raising on every operation, `save_stock_in` returns
its negative result. -/
theorem save_stock_in_on_raise (e : PyExc) (r : String) (d : Dict) :
    (save_stock_in (envRaise e) r d).1 = Except.ok (PyRet.rBool false) := by
  rfl

/-- Helper: under a client raising on every operation, `get_stock_in_records` returns
its negative result. -/
theorem get_stock_in_records_on_raise (e : PyExc) :
    (get_stock_in_records (envRaise e)).1 = Except.ok (PyRet.rList []) := by
  rfl

/-- Helper: under a client raising on every operation, `delete_stock_in` returns
its negative result. -/
theorem delete_stock_in_on_raise (e : PyExc) (r : String) :
    (delete_stock_in (envRaise e) r).1 = Except.ok (PyRet.rBool false) := by
  rfl

/-- Helper: under a client raising on every operation, `delete_stock_out` returns
its negative result. -/
theorem delete_stock_out_on_raise (e : PyExc) (r : String) :
    (delete_stock_out (envRaise e) r).1 = Except.ok (PyRet.rBool false) := by
  rfl

/-- Helper: under a client raising on every operation, `get_all_suppliers` returns
its negative result. -/
theorem get_all_suppliers_on_raise (e : PyExc) :
    (get_all_suppliers (envRaise e)).1 = Except.ok (PyRet.rList []) := by
  rfl

/-- Helper: under a client raising on every operation, `save_supplier` returns
its negative result. -/
theorem save_supplier_on_raise (e : PyExc) (s : String) (d : Dict) :
    (save_supplier (envRaise e) s d).1 = Except.ok (PyRet.rBool false) := by
  rfl

/-- Helper: under a client raising on every operation, `delete_supplier` returns
its negative result. -/
theorem delete_supplier_on_raise (e : PyExc) (s : String) :
    (delete_supplier (envRaise e) s).1 = Except.ok (PyRet.rBool false) := by
  rfl

/-- Helper: under a client raising on every operation, `get_all_warehouses` returns
its negative result. -/
theorem get_all_warehouses_on_raise (e : PyExc) :
    (get_all_warehouses (envRaise e)).1 = Except.ok (PyRet.rList []) := by
  rfl

/-- Helper: under a client raising on every operation, `save_warehouse` returns
its negative result. -/
theorem save_warehouse_on_raise (e : PyExc) (w : String) (d : Dict) :
    (save_warehouse (envRaise e) w d).1 = Except.ok (PyRet.rBool false) := by
  rfl

/-- Helper: under a client raising on every operation, `delete_warehouse` returns
its negative result. -/
theorem delete_warehouse_on_raise (e : PyExc) (w : String) :
    (delete_warehouse (envRaise e) w).1 = Except.ok (PyRet.rBool false) := by
  rfl

/-- C3: for every environment (hence every behavior of the remote client,
including any remote call raising), no exception escapes `get_client` or any
gateway function: `get_client` always returns a client or None, every
gateway function always returns a value rather than raising, and under a
client whose every remote call raises, each function that attempts a remote
call converts the failure into its normal-case negative result (false, the
empty list, or absent); `save_stock_out` attempts no remote call, so no
remote failure can arise inside it. -/
theorem no_exception_escapes_gateway :
    (∀ env, ∃ c, get_client env = Except.ok c) ∧
    (∀ env item, ∃ v, (save_item env item).1 = Except.ok v) ∧
    (∀ env i d, ∃ v, (update_item env i d).1 = Except.ok v) ∧
    (∀ env i, ∃ v, (delete_item env i).1 = Except.ok v) ∧
    (∀ env, ∃ v, (get_all_items env).1 = Except.ok v) ∧
    (∀ env, ∃ v, (get_stock_out_records env).1 = Except.ok v) ∧
    (∀ env r, ∃ v, (get_stock_out_record env r).1 = Except.ok v) ∧
    (∀ env r d, ∃ v, (save_stock_out env r d).1 = Except.ok v) ∧
    (∀ env r d, ∃ v, (save_stock_in env r d).1 = Except.ok v) ∧
    (∀ env, ∃ v, (get_stock_in_records env).1 = Except.ok v) ∧
    (∀ env r, ∃ v, (delete_stock_in env r).1 = Except.ok v) ∧
    (∀ env r, ∃ v, (delete_stock_out env r).1 = Except.ok v) ∧
    (∀ env, ∃ v, (get_all_suppliers env).1 = Except.ok v) ∧
    (∀ env s d, ∃ v, (save_supplier env s d).1 = Except.ok v) ∧
    (∀ env s, ∃ v, (delete_supplier env s).1 = Except.ok v) ∧
    (∀ env, ∃ v, (get_all_warehouses env).1 = Except.ok v) ∧
    (∀ env w d, ∃ v, (save_warehouse env w d).1 = Except.ok v) ∧
    (∀ env w, ∃ v, (delete_warehouse env w).1 = Except.ok v) ∧
    (∀ e item, (save_item (envRaise e) item).1 = Except.ok (PyRet.rBool false)) ∧
    (∀ e i d, (update_item (envRaise e) i d).1 = Except.ok (PyRet.rBool false)) ∧
    (∀ e i, (delete_item (envRaise e) i).1 = Except.ok (PyRet.rBool false)) ∧
    (∀ e, (get_all_items (envRaise e)).1 = Except.ok (PyRet.rList [])) ∧
    (∀ e, (get_stock_out_records (envRaise e)).1 = Except.ok (PyRet.rList [])) ∧
    (∀ e r, (get_stock_out_record (envRaise e) r).1 = Except.ok PyRet.rNone) ∧
    (∀ e r d, (save_stock_in (envRaise e) r d).1 = Except.ok (PyRet.rBool false)) ∧
    (∀ e, (get_stock_in_records (envRaise e)).1 = Except.ok (PyRet.rList [])) ∧
    (∀ e r, (delete_stock_in (envRaise e) r).1 = Except.ok (PyRet.rBool false)) ∧
    (∀ e r, (delete_stock_out (envRaise e) r).1 = Except.ok (PyRet.rBool false)) ∧
    (∀ e, (get_all_suppliers (envRaise e)).1 = Except.ok (PyRet.rList [])) ∧
    (∀ e s d, (save_supplier (envRaise e) s d).1 = Except.ok (PyRet.rBool false)) ∧
    (∀ e s, (delete_supplier (envRaise e) s).1 = Except.ok (PyRet.rBool false)) ∧
    (∀ e, (get_all_warehouses (envRaise e)).1 = Except.ok (PyRet.rList [])) ∧
    (∀ e w d, (save_warehouse (envRaise e) w d).1 = Except.ok (PyRet.rBool false)) ∧
    (∀ e w, (delete_warehouse (envRaise e) w).1 = Except.ok (PyRet.rBool false)) ∧
    (∀ env r d, (save_stock_out env r d).2 = []) :=
  ⟨get_client_ok, save_item_never_raises, update_item_never_raises, delete_item_never_raises,
    get_all_items_never_raises, get_stock_out_records_never_raises,
    get_stock_out_record_never_raises, save_stock_out_never_raises, save_stock_in_never_raises,
    get_stock_in_records_never_raises, delete_stock_in_never_raises,
    delete_stock_out_never_raises, get_all_suppliers_never_raises, save_supplier_never_raises,
    delete_supplier_never_raises, get_all_warehouses_never_raises, save_warehouse_never_raises,
    delete_warehouse_never_raises, save_item_on_raise, update_item_on_raise,
    delete_item_on_raise, get_all_items_on_raise, get_stock_out_records_on_raise,
    get_stock_out_record_on_raise, save_stock_in_on_raise, get_stock_in_records_on_raise,
    delete_stock_in_on_raise, delete_stock_out_on_raise, get_all_suppliers_on_raise,
    save_supplier_on_raise, delete_supplier_on_raise, get_all_warehouses_on_raise,
    save_warehouse_on_raise, delete_warehouse_on_raise, save_stock_out_no_remote_op⟩

/-- Helper: over a concrete store, `get_client` yields the Firestore-model
client. -/
theorem get_client_envOf (store : Store) :
    get_client (envOf store) = Except.ok (some (firestoreBehavior store)) := rfl

/-- Helper: the Firestore model answers the `created_at`-descending query
with the collection sorted most-recent-first. -/
theorem firestoreBehavior_orderBy (store : Store) (coll : String) :
    (firestoreBehavior store).orderByStreamResult coll "created_at" "DESCENDING" =
      Except.ok (sortDescCreatedAt (collDocs store coll)) := rfl

/-- C5: for every successful collection-wide read over `stock_out`,
`stock_in`, `suppliers` or `warehouses` — whatever documents the remote
stream yields — the returned records are exactly those documents with the
document identifier injected under the `id` key, and the `id` key of every
injected record equals the document identifier, overriding any stored `id`
field. -/
theorem collection_reads_inject_doc_id (env : Env) (cb : ClientBehavior) (l : List Doc)
    (hc : get_client env = Except.ok (some cb)) :
    (cb.orderByStreamResult "stock_out" "created_at" "DESCENDING" = Except.ok l →
      (get_stock_out_records env).1 = Except.ok (PyRet.rList (l.map injectId))) ∧
    (cb.orderByStreamResult "stock_in" "created_at" "DESCENDING" = Except.ok l →
      (get_stock_in_records env).1 = Except.ok (PyRet.rList (l.map injectId))) ∧
    (cb.streamResult "suppliers" = Except.ok l →
      (get_all_suppliers env).1 = Except.ok (PyRet.rList (l.map injectId))) ∧
    (cb.streamResult "warehouses" = Except.ok l →
      (get_all_warehouses env).1 = Except.ok (PyRet.rList (l.map injectId))) ∧
    (∀ d : Doc, dictGet (injectId d) "id" = PyVal.vStr d.id) := by
  refine ⟨fun h => ?_, fun h => ?_, fun h => ?_, fun h => ?_, dictGet_injectId_id⟩
  · unfold get_stock_out_records
    rw [hc]
    dsimp only
    rw [h]
  · unfold get_stock_in_records
    rw [hc]
    dsimp only
    rw [h]
  · unfold get_all_suppliers
    rw [hc]
    dsimp only
    rw [h]
  · unfold get_all_warehouses
    rw [hc]
    dsimp only
    rw [h]

/-- C5 witness: over a store whose single supplier document stores a stale
`id` field, the collection read returns the document with the true document
identifier under `id`. -/
theorem collection_reads_inject_doc_id_witness :
    (get_all_suppliers (envOf [("suppliers", [⟨"s1", [("id", PyVal.vStr "stale")]⟩])])).1 =
      Except.ok (PyRet.rList (([⟨"s1", [("id", PyVal.vStr "stale")]⟩] : List Doc).map injectId)) ∧
    dictGet (injectId ⟨"s1", [("id", PyVal.vStr "stale")]⟩) "id" = PyVal.vStr "s1" := by
  have h := collection_reads_inject_doc_id
    (envOf [("suppliers", [⟨"s1", [("id", PyVal.vStr "stale")]⟩])])
    (firestoreBehavior [("suppliers", [⟨"s1", [("id", PyVal.vStr "stale")]⟩])])
    [⟨"s1", [("id", PyVal.vStr "stale")]⟩] rfl
  exact ⟨h.2.2.1 rfl, h.2.2.2.2 _⟩

/-- Documents with `created_at` values 1, 3, 2 — the spec's worked example. -/
def exampleDocs : List Doc :=
  [⟨"a", [("created_at", PyVal.vInt 1)]⟩,
   ⟨"b", [("created_at", PyVal.vInt 3)]⟩,
   ⟨"c", [("created_at", PyVal.vInt 2)]⟩]

/-- A store holding the example documents in `stock_out` and `stock_in`. -/
def storeEx : Store := [("stock_out", exampleDocs), ("stock_in", exampleDocs)]

/-- C6: every successful `get_stock_out_records`/`get_stock_in_records` call
over the Firestore model returns records whose `created_at` values are in
descending order, and on documents with `created_at` values 1, 3, 2 the
returned order is 3, 2, 1. -/
theorem records_sorted_by_created_at_desc :
    (∀ store : Store, ∃ res,
      (get_stock_out_records (envOf store)).1 = Except.ok (PyRet.rList res) ∧
      List.Sorted (fun a b : Int => b ≤ a) (res.map createdAtOfDict)) ∧
    (∀ store : Store, ∃ res,
      (get_stock_in_records (envOf store)).1 = Except.ok (PyRet.rList res) ∧
      List.Sorted (fun a b : Int => b ≤ a) (res.map createdAtOfDict)) ∧
    retCreatedAts (get_stock_out_records (envOf storeEx)) = some [3, 2, 1] ∧
    retCreatedAts (get_stock_in_records (envOf storeEx)) = some [3, 2, 1] := by
  refine ⟨fun store => ?_, fun store => ?_, by decide, by decide⟩
  · refine ⟨(sortDescCreatedAt (collDocs store "stock_out")).map injectId, ?_, ?_⟩
    · unfold get_stock_out_records
      rw [get_client_envOf]
      dsimp only
      rw [firestoreBehavior_orderBy]
    · rw [List.map_map]
      have hcomp : createdAtOfDict ∘ injectId = createdAtInt := funext createdAtOfDict_injectId
      rw [hcomp]
      have hs : List.Sorted descByCreatedAt (sortDescCreatedAt (collDocs store "stock_out")) :=
        List.sorted_insertionSort descByCreatedAt _
      unfold List.Sorted at hs ⊢
      rw [List.pairwise_map]
      exact hs.imp (fun hab => hab)
  · refine ⟨(sortDescCreatedAt (collDocs store "stock_in")).map injectId, ?_, ?_⟩
    · unfold get_stock_in_records
      rw [get_client_envOf]
      dsimp only
      rw [firestoreBehavior_orderBy]
    · rw [List.map_map]
      have hcomp : createdAtOfDict ∘ injectId = createdAtInt := funext createdAtOfDict_injectId
      rw [hcomp]
      have hs : List.Sorted descByCreatedAt (sortDescCreatedAt (collDocs store "stock_in")) :=
        List.sorted_insertionSort descByCreatedAt _
      unfold List.Sorted at hs ⊢
      rw [List.pairwise_map]
      exact hs.imp (fun hab => hab)

/-- C7: `get_stock_out_record` returns the stored record with the document
identifier injected under `id` when the document exists, and absent — never
an error — when the document does not exist, the remote call raises, or the
client is unavailable. -/
theorem get_stock_out_record_absent_or_inject (env : Env) (cb : ClientBehavior)
    (rid : String) (d : Doc) :
    (get_client env = Except.ok none →
      get_stock_out_record env rid = (Except.ok PyRet.rNone, [])) ∧
    (get_client env = Except.ok (some cb) →
      (cb.getDocResult "stock_out" rid = Except.ok none →
        get_stock_out_record env rid =
          (Except.ok PyRet.rNone, [RemoteOp.getDoc "stock_out" rid])) ∧
      (cb.getDocResult "stock_out" rid = Except.ok (some d) →
        get_stock_out_record env rid =
          (Except.ok (PyRet.rDict (injectId d)), [RemoteOp.getDoc "stock_out" rid]) ∧
        dictGet (injectId d) "id" = PyVal.vStr d.id) ∧
      (∀ e, cb.getDocResult "stock_out" rid = Except.error e →
        get_stock_out_record env rid =
          (Except.ok PyRet.rNone, [RemoteOp.getDoc "stock_out" rid]))) := by
  constructor
  · intro h
    unfold get_stock_out_record
    rw [h]
  · intro hc
    refine ⟨fun h => ?_, fun h => ⟨?_, dictGet_injectId_id d⟩, fun e h => ?_⟩ <;>
    · unfold get_stock_out_record
      rw [hc]
      dsimp only
      rw [h]

/-- C7 witness: over a store holding one `stock_out` document, the existing
id yields the record with the identifier injected, and a missing id yields
absent. -/
theorem get_stock_out_record_absent_or_inject_witness :
    get_stock_out_record (envOf [("stock_out", [⟨"r1", [("qty", PyVal.vInt 5)]⟩])]) "r1" =
      (Except.ok (PyRet.rDict (injectId ⟨"r1", [("qty", PyVal.vInt 5)]⟩)),
        [RemoteOp.getDoc "stock_out" "r1"]) ∧
    get_stock_out_record (envOf [("stock_out", [⟨"r1", [("qty", PyVal.vInt 5)]⟩])]) "zz" =
      (Except.ok PyRet.rNone, [RemoteOp.getDoc "stock_out" "zz"]) := by
  constructor
  · exact (((get_stock_out_record_absent_or_inject
      (envOf [("stock_out", [⟨"r1", [("qty", PyVal.vInt 5)]⟩])])
      (firestoreBehavior [("stock_out", [⟨"r1", [("qty", PyVal.vInt 5)]⟩])])
      "r1" ⟨"r1", [("qty", PyVal.vInt 5)]⟩).2 rfl).2.1 rfl).1
  · exact ((get_stock_out_record_absent_or_inject
      (envOf [("stock_out", [⟨"r1", [("qty", PyVal.vInt 5)]⟩])])
      (firestoreBehavior [("stock_out", [⟨"r1", [("qty", PyVal.vInt 5)]⟩])])
      "zz" ⟨"r1", [("qty", PyVal.vInt 5)]⟩).2 rfl).1 rfl

/-- C8: with the client available over the Firestore model, each delete
function called on an identifier with no corresponding document returns
true — deletion is idempotent and deleting a non-existent document is not
an error. -/
theorem delete_nonexistent_returns_true (store : Store) (i : Int) (r : String)
    (h1 : docFind store "items" (toString i) = none)
    (h2 : docFind store "stock_in" r = none)
    (h3 : docFind store "stock_out" r = none)
    (h4 : docFind store "suppliers" r = none)
    (h5 : docFind store "warehouses" r = none) :
    delete_item (envOf store) i =
      (Except.ok (PyRet.rBool true), [RemoteOp.delete "items" (toString i)]) ∧
    delete_stock_in (envOf store) r =
      (Except.ok (PyRet.rBool true), [RemoteOp.delete "stock_in" r]) ∧
    delete_stock_out (envOf store) r =
      (Except.ok (PyRet.rBool true), [RemoteOp.delete "stock_out" r]) ∧
    delete_supplier (envOf store) r =
      (Except.ok (PyRet.rBool true), [RemoteOp.delete "suppliers" r]) ∧
    delete_warehouse (envOf store) r =
      (Except.ok (PyRet.rBool true), [RemoteOp.delete "warehouses" r]) :=
  ⟨rfl, rfl, rfl, rfl, rfl⟩

/-- C8 witness: over the empty store (no document exists at all), each
delete function returns true on its identifier. -/
theorem delete_nonexistent_returns_true_witness :
    delete_item (envOf []) 7 = (Except.ok (PyRet.rBool true), [RemoteOp.delete "items" "7"]) ∧
    delete_stock_in (envOf []) "x" =
      (Except.ok (PyRet.rBool true), [RemoteOp.delete "stock_in" "x"]) ∧
    delete_stock_out (envOf []) "x" =
      (Except.ok (PyRet.rBool true), [RemoteOp.delete "stock_out" "x"]) ∧
    delete_supplier (envOf []) "x" =
      (Except.ok (PyRet.rBool true), [RemoteOp.delete "suppliers" "x"]) ∧
    delete_warehouse (envOf []) "x" =
      (Except.ok (PyRet.rBool true), [RemoteOp.delete "warehouses" "x"]) :=
  delete_nonexistent_returns_true [] 7 "x" rfl rfl rfl rfl rfl

end FirestoreService
